import Mathlib

/-!
Verification development for the wallbot product-tracking bot.

The embedding below translates the Python sources (`models.py`, `database.py`,
`product_tracker.py`, `notification_service.py`) into pure Lean definitions:

* SQLite tables become Lean lists of row structures; keyed SQL statements
  become the corresponding list operations.
* Python floats used for prices and timestamps become rationals.
* Code that raises and catches exceptions becomes `Option`-returning
  constructors plus explicit skip branches, mirroring each try/except.
* Telegram transport is a parameter: `none` models a raised request
  exception, `some false` a non-200 reply, `some true` a 200 reply.
-/

namespace Wallbot

/-- `models.SearchResult`: an ephemeral candidate listing scraped from the
marketplace, handed to reconciliation. Its pydantic validator guarantees
`0 < price` at parse time; the title is unconstrained. -/
structure SearchResult where
  id : String
  title : String
  price : ℚ
  web_slug : String
  user_id : String
deriving DecidableEq

/-- A row of the `products` table (`database.py _setup_database`):
PRIMARY KEY (item_id, chat_id). -/
structure Product where
  item_id : String
  chat_id : String
  title : String
  price : ℚ
  url : String
  user_id : String
  publish_date : Option Int
  observations : Option String
  created_at : ℚ
  updated_at : ℚ
deriving DecidableEq

/-- Python `str.strip()`: remove whitespace from both ends of a string. -/
def pyStrip (s : String) : String :=
  ⟨((s.data.dropWhile Char.isWhitespace).reverse.dropWhile
      Char.isWhitespace).reverse⟩

/-- `models.Product` pydantic construction: price strictly positive and title
non-blank after stripping, the stored title being the stripped one; `none`
models the constructor raising `ValidationError`. -/
def mkProduct (item_id chat_id title : String) (price : ℚ) (url user_id : String)
    (publish_date : Option Int) (observations : Option String)
    (created_at updated_at : ℚ) : Option Product :=
  if 0 < price ∧ pyStrip title ≠ "" then
    some ⟨item_id, chat_id, pyStrip title, price, url, user_id, publish_date,
      observations, created_at, updated_at⟩
  else none

/-- `models.ProductSearch` after validation (defaults filled in). -/
structure ProductSearch where
  chat_id : String
  keywords : String
  min_price : Option ℚ
  max_price : Option ℚ
  category_ids : Option String
  distance : String
  publish_date : Int
  order : String
  username : Option String
  name : Option String
  active : Bool
deriving DecidableEq

/-- Field constraints on `ProductSearch.keywords`: pydantic
`min_length=1, max_length=200` on the raw string, then the field validator
rejects a string that is blank after stripping. -/
def validKeywords (keywords : String) : Bool :=
  decide (1 ≤ keywords.length) && decide (keywords.length ≤ 200) &&
    !(pyStrip keywords == "")

/-- Price-bound constraints on `ProductSearch`: `ge=0` on each bound and the
`validate_price_range` validator, which raises when both bounds are given and
`max_price <= min_price`. -/
def validPriceRange (min_price max_price : Option ℚ) : Bool :=
  (min_price.all fun m => decide (0 ≤ m)) &&
  (max_price.all fun m => decide (0 ≤ m)) &&
  (match min_price, max_price with
   | some mn, some mx => decide (mn < mx)
   | _, _ => true)

/-- `models.ProductSearch` construction as performed by
`ProductTracker.add_search`: validation happens eagerly in the constructor,
`none` models a raised `ValidationError`; the stored keywords are stripped and
the remaining fields take their defaults (`active = true`). -/
def mkProductSearch (chat_id keywords : String) (min_price max_price : Option ℚ)
    (category_ids username name : Option String) : Option ProductSearch :=
  if validKeywords keywords && validPriceRange min_price max_price then
    some ⟨chat_id, pyStrip keywords, min_price, max_price, category_ids,
      "400", 24, "newest", username, name, true⟩
  else none

/-- A row of the `product_searches` table: UNIQUE(chat_id, keywords). -/
structure SearchRow where
  chat_id : String
  keywords : String
  min_price : Option ℚ
  max_price : Option ℚ
  category_ids : Option String
  distance : String
  publish_date : Int
  order : String
  username : Option String
  name : Option String
  active : Bool
  created_at : ℚ
  updated_at : ℚ
deriving DecidableEq

namespace DatabaseManager

/-- The WHERE clause `item_id = ? AND chat_id = ?` used by `get_product`. -/
def productKeyMatches (item_id chat_id : String) (p : Product) : Bool :=
  p.item_id == item_id && p.chat_id == chat_id

/-- `DatabaseManager.get_product`: SELECT by the full (item_id, chat_id) key. -/
def get_product (db : List Product) (item_id chat_id : String) : Option Product :=
  db.find? (productKeyMatches item_id chat_id)

/-- `DatabaseManager.add_product`: INSERT OR REPLACE keyed on the primary key
(item_id, chat_id). `created_at` is absent from the column list, so the
replacing row takes the fresh CURRENT_TIMESTAMP default; `updated_at` is set
explicitly to `datetime.now()`. -/
def add_product (db : List Product) (p : Product) (now : ℚ) : List Product :=
  db.filter (fun q => !(productKeyMatches p.item_id p.chat_id q)) ++
    [{ p with created_at := now, updated_at := now }]

/-- `DatabaseManager.update_product_price`: UPDATE products SET price,
observations, updated_at WHERE `item_id = ?` — the WHERE clause names only
item_id, not chat_id, so every row with that item_id is rewritten. -/
def update_product_price (db : List Product) (item_id : String) (new_price : ℚ)
    (observations : Option String) (now : ℚ) : List Product :=
  db.map (fun p =>
    if p.item_id == item_id then
      { p with price := new_price, observations := observations, updated_at := now }
    else p)

/-- `DatabaseManager.cleanup_old_products`: DELETE FROM products WHERE
`created_at < now - timedelta(hours=hours)` (timestamps measured in hours
here), returning the affected row count (`cursor.rowcount`). -/
def cleanup_old_products (db : List Product) (hours : ℚ) (now : ℚ) :
    Nat × List Product :=
  let kept := db.filter (fun p => !(decide (p.created_at < now - hours)))
  (db.length - kept.length, kept)

/-- The key `chat_id = ? AND keywords = ?` of the product_searches table. -/
def searchKeyMatches (chat_id keywords : String) (r : SearchRow) : Bool :=
  r.chat_id == chat_id && r.keywords == keywords

/-- `DatabaseManager.add_search`: INSERT OR REPLACE into product_searches,
whose UNIQUE(chat_id, keywords) constraint makes the statement replace the
existing row for that key. `created_at` is absent from the column list, so the
replacing row takes a fresh default; `updated_at` is set to `datetime.now()`. -/
def add_search (db : List SearchRow) (s : ProductSearch) (now : ℚ) :
    List SearchRow :=
  db.filter (fun r => !(searchKeyMatches s.chat_id s.keywords r)) ++
    [⟨s.chat_id, s.keywords, s.min_price, s.max_price, s.category_ids,
      s.distance, s.publish_date, s.order, s.username, s.name, s.active,
      now, now⟩]

/-- `DatabaseManager.deactivate_search`: UPDATE product_searches SET
active = 0, updated_at = now WHERE chat_id = ? AND keywords = ?. The Python
function returns True however many rows matched. -/
def deactivate_search (db : List SearchRow) (chat_id keywords : String)
    (now : ℚ) : List SearchRow :=
  db.map (fun r =>
    if searchKeyMatches chat_id keywords r then
      { r with active := false, updated_at := now }
    else r)

/-- `DatabaseManager.get_all_active_searches`: SELECT WHERE active = 1. -/
def get_all_active_searches (db : List SearchRow) : List SearchRow :=
  db.filter (·.active)

end DatabaseManager

/-- The notification side effects the tracker requests from
`NotificationService`, as observable events (chat, payload). -/
inductive Event where
  | new_listing (chat_id item_id title : String) (price : ℚ)
  | price_drop (chat_id item_id : String) (old_price new_price : ℚ)
  | search_added (chat_id keywords : String)
  | search_removed (chat_id keywords : String)
  | error_message (chat_id : String)
deriving DecidableEq

def Event.isNewListing : Event → Bool
  | .new_listing _ _ _ _ => true
  | _ => false

/-- The observation note written on a price drop:
`f"Precio anterior: {existing_product.price}€"`. -/
def priorNote (p : ℚ) : String := "Precio anterior: " ++ toString p ++ "€"

/-- State visible to `ProductTracker`: the two tables plus the trace of
notification events it has emitted. -/
structure TrackerState where
  products : List Product
  searches : List SearchRow
  events : List Event
deriving DecidableEq

namespace ProductTracker

open DatabaseManager

/-- `ProductTracker._handle_new_product`: build the validated `Product`,
insert it, then notify; a `ValidationError` from the constructor is caught by
the surrounding try/except and the listing is skipped. -/
def handle_new_product (r : SearchResult) (chat_id : String) (now : ℚ)
    (st : TrackerState) : TrackerState :=
  match mkProduct r.id chat_id r.title r.price r.web_slug r.user_id none none
      now now with
  | none => st
  | some p =>
    { st with
      products := add_product st.products p now,
      events := st.events ++ [Event.new_listing chat_id r.id p.title p.price] }

/-- `ProductTracker._handle_existing_product`: on a strict price drop, build
the updated `Product` (whose constructor may raise — caught and skipped),
persist the new price, then notify with old and new price; otherwise no state
change and no notification. -/
def handle_existing_product (r : SearchResult) (existing : Product) (now : ℚ)
    (st : TrackerState) : TrackerState :=
  if r.price < existing.price then
    match mkProduct r.id existing.chat_id r.title r.price r.web_slug r.user_id
        none (some (priorNote existing.price)) now now with
    | none => st
    | some _ =>
      { st with
        products := update_product_price st.products r.id r.price
          (some (priorNote existing.price)) now,
        events := st.events ++
          [Event.price_drop existing.chat_id r.id existing.price r.price] }
  else st

/-- `ProductTracker._process_product_result`: reconciliation of one candidate
under one scope — look up by (id, chat_id) and dispatch. -/
def process_product_result (r : SearchResult) (chat_id : String) (now : ℚ)
    (st : TrackerState) : TrackerState :=
  match get_product st.products r.id chat_id with
  | none => handle_new_product r chat_id now st
  | some existing => handle_existing_product r existing now st

/-- The result loop of `ProductTracker._process_search`. -/
def process_results (rs : List SearchResult) (chat_id : String) (now : ℚ)
    (st : TrackerState) : TrackerState :=
  rs.foldl (fun s r => process_product_result r chat_id now s) st

/-- `ProductTracker._process_search`: query the adapter; an adapter error is
caught, the search contributing nothing this cycle; otherwise reconcile each
returned candidate in order. -/
def process_search (outcome : Except Unit (List SearchResult))
    (chat_id : String) (now : ℚ) (st : TrackerState) : TrackerState :=
  match outcome with
  | .error _ => st
  | .ok rs => process_results rs chat_id now st

/-- The loop body of `ProductTracker._process_all_searches`: every search runs
under its own try/except, so each is processed regardless of the others. Each
search is paired with its adapter outcome for the cycle. -/
def process_all_searches
    (searches : List (String × Except Unit (List SearchResult))) (now : ℚ)
    (st : TrackerState) : TrackerState :=
  searches.foldl (fun s q => process_search q.2 q.1 now s) st

/-- `ProductTracker.add_search`: the pydantic constructor validates eagerly;
on failure the exception is caught, an error message sent, False returned and
nothing persisted; on success the search is upserted and a confirmation sent. -/
def add_search (chat_id keywords : String) (min_price max_price : Option ℚ)
    (category_ids username name : Option String) (now : ℚ)
    (st : TrackerState) : Bool × TrackerState :=
  match mkProductSearch chat_id keywords min_price max_price category_ids
      username name with
  | none =>
    (false, { st with events := st.events ++ [Event.error_message chat_id] })
  | some s =>
    (true, { st with
      searches := DatabaseManager.add_search st.searches s now,
      events := st.events ++ [Event.search_added chat_id keywords] })

/-- `ProductTracker.remove_search`: `deactivate_search` always reports True,
so the removal is confirmed and True returned whether or not a matching
search row exists. -/
def remove_search (chat_id keywords : String) (now : ℚ) (st : TrackerState) :
    Bool × TrackerState :=
  (true, { st with
    searches := deactivate_search st.searches chat_id keywords now,
    events := st.events ++ [Event.search_removed chat_id keywords] })

end ProductTracker

/-- Mutable state of `NotificationService`: the rolling counter and the start
of the current window. -/
structure NotifState where
  notification_count : Nat
  last_reset : ℚ
deriving DecidableEq

namespace NotificationService

/-- `NotificationService._check_rate_limit`: reset the counter when more than
3600 seconds have elapsed since the window start, then refuse when the counter
has reached the hourly maximum. -/
def check_rate_limit (maxPerHour : Nat) (now : ℚ) (st : NotifState) :
    Bool × NotifState :=
  let st1 := if 3600 < now - st.last_reset then ⟨0, now⟩ else st
  if maxPerHour ≤ st1.notification_count then (false, st1) else (true, st1)

/-- `NotificationService._send_telegram_message`: returns
(result, new state, whether the transport was contacted). The counter
increments only on a 200 reply; a non-200 reply (`some false`) and a raised
transport exception (`none`) both yield False without incrementing. -/
def send_telegram_message (maxPerHour : Nat) (now : ℚ) (transport : Option Bool)
    (st : NotifState) : Bool × NotifState × Bool :=
  let rc := check_rate_limit maxPerHour now st
  if rc.1 = false then (false, rc.2, false)
  else
    match transport with
    | some true => (true, ⟨rc.2.notification_count + 1, rc.2.last_reset⟩, true)
    | some false => (false, rc.2, true)
    | none => (false, rc.2, true)

/-- A sequence of `_send_telegram_message` calls, each at its own time with
its own transport outcome; returns the list of boolean results and the final
state. This iterates the source function to state its temporal contract. -/
def send_many (maxPerHour : Nat) : List (ℚ × Option Bool) → NotifState →
    List Bool × NotifState
  | [], st => ([], st)
  | a :: rest, st =>
    let r := send_telegram_message maxPerHour a.1 a.2 st
    let k := send_many maxPerHour rest r.2.1
    (r.1 :: k.1, k.2)

end NotificationService

/-! ### Helper lemmas about the embedded operations -/

open DatabaseManager ProductTracker NotificationService

lemma length_filter_add_length_filter_not {α : Type} (l : List α) (p : α → Bool) :
    (l.filter p).length + (l.filter (fun a => !(p a))).length = l.length := by
  induction l with
  | nil => rfl
  | cons a t ih =>
    cases h : p a <;> simp [List.filter_cons, h] <;> omega

lemma find?_filter_of_imp {α : Type} (l : List α) (p q : α → Bool)
    (h : ∀ a, p a = true → q a = true) :
    (l.filter q).find? p = l.find? p := by
  induction l with
  | nil => rfl
  | cons a t ih =>
    cases hq : q a
    · have hp : p a = false := by
        cases hp : p a
        · rfl
        · have := h a hp
          rw [hq] at this
          exact absurd this (by simp)
      simp [List.filter_cons, hq, List.find?_cons, hp, ih]
    · cases hp : p a <;> simp [List.filter_cons, hq, List.find?_cons, hp, ih]

lemma find?_map_key {α : Type} (l : List α) (f : α → α) (p : α → Bool)
    (h : ∀ a, p (f a) = p a) :
    (l.map f).find? p = (l.find? p).map f := by
  induction l with
  | nil => rfl
  | cons a t ih =>
    cases hp : p a <;> simp [List.find?_cons, h, hp, ih]

lemma find?_append_of_last_neg {α : Type} (l : List α) (x : α) (p : α → Bool)
    (h : p x = false) :
    (l ++ [x]).find? p = l.find? p := by
  induction l with
  | nil => simp [List.find?_cons, h]
  | cons a t ih =>
    cases hp : p a <;> simp [List.find?_cons, hp, ih]

lemma find?_append_none {α : Type} (l1 l2 : List α) (p : α → Bool)
    (h : l1.find? p = none) :
    (l1 ++ l2).find? p = l2.find? p := by
  induction l1 with
  | nil => rfl
  | cons a t ih =>
    have ha : p a = false := by
      have := List.find?_eq_none.mp h a (by simp)
      simpa using this
    have ht : t.find? p = none := by
      rw [List.find?_eq_none] at h ⊢
      intro x hx
      exact h x (by simp [hx])
    simp [List.find?_cons, ha, ih ht]

lemma get_product_key {db : List Product} {i c : String} {p : Product}
    (h : get_product db i c = some p) : p.item_id = i ∧ p.chat_id = c := by
  have hp := List.find?_some h
  simp [productKeyMatches] at hp
  exact hp

lemma get_product_update_product_price (db : List Product) (j : String) (v : ℚ)
    (obs : Option String) (t : ℚ) (i c : String) :
    get_product (update_product_price db j v obs t) i c =
      (get_product db i c).map (fun p =>
        if p.item_id == j then
          { p with price := v, observations := obs, updated_at := t }
        else p) := by
  unfold get_product update_product_price
  refine find?_map_key db _ _ (fun a => ?_)
  by_cases h : a.item_id == j <;> simp [productKeyMatches, h]

lemma get_product_add_product_self (db : List Product) (p : Product) (now : ℚ) :
    get_product (add_product db p now) p.item_id p.chat_id =
      some { p with created_at := now, updated_at := now } := by
  unfold get_product add_product
  rw [find?_append_none]
  · simp [List.find?_cons, productKeyMatches]
  · rw [List.find?_eq_none]
    intro a ha
    have := (List.mem_filter.mp ha).2
    simpa using this

lemma get_product_add_product_other (db : List Product) (p : Product) (now : ℚ)
    (i c : String) (h : ¬(i = p.item_id ∧ c = p.chat_id)) :
    get_product (add_product db p now) i c = get_product db i c := by
  unfold get_product add_product
  rw [find?_append_of_last_neg]
  · exact find?_filter_of_imp db _ _ (fun a ha => by
      simp [productKeyMatches] at ha ⊢
      rcases not_and_or.mp h with hi | hc
      · left; rw [ha.1]; exact fun e => hi e
      · right; rw [ha.2]; exact hc)
  · simp [productKeyMatches]
    intro hitem hchat
    exact absurd ⟨hitem.symm, hchat.symm⟩ h

lemma mkProduct_eq_some {item chat title : String} {price : ℚ} {url uid : String}
    {pd : Option Int} {obs : Option String} {ca ua : ℚ} {p : Product}
    (h : mkProduct item chat title price url uid pd obs ca ua = some p) :
    p = ⟨item, chat, pyStrip title, price, url, uid, pd, obs, ca, ua⟩ ∧
      0 < price ∧ pyStrip title ≠ "" := by
  unfold mkProduct at h
  split at h
  · rename_i hcond
    exact ⟨(Option.some_inj.mp h).symm, hcond.1, hcond.2⟩
  · exact absurd h (by simp)

lemma mkProduct_of_valid (item chat title : String) (price : ℚ) (url uid : String)
    (pd : Option Int) (obs : Option String) (ca ua : ℚ)
    (hpos : 0 < price) (htitle : pyStrip title ≠ "") :
    mkProduct item chat title price url uid pd obs ca ua =
      some ⟨item, chat, pyStrip title, price, url, uid, pd, obs, ca, ua⟩ := by
  unfold mkProduct
  rw [if_pos ⟨hpos, htitle⟩]

/-! ### Claim theorems -/

/-- C8: the retention sweep keeps exactly the TrackedListing rows whose
creation time lies within the horizon — independently of their scope and of
any search's lifecycle, neither of which the predicate mentions — and returns
the number of deleted rows. -/
theorem C8_retention_sweep (db : List Product) (hours now : ℚ) :
    (∀ p : Product, p ∈ (cleanup_old_products db hours now).2 ↔
      (p ∈ db ∧ now - hours ≤ p.created_at)) ∧
    (cleanup_old_products db hours now).1 =
      (db.filter (fun p => decide (p.created_at < now - hours))).length := by
  constructor
  · intro p
    simp [cleanup_old_products, List.mem_filter, not_lt]
  · have h := length_filter_add_length_filter_not db
      (fun p => decide (p.created_at < now - hours))
    simp only [cleanup_old_products]
    omega

/-- Witness for C8 at a concrete store: one row aged out, one inside the
horizon, sweep at time 30 with a 24-hour horizon. -/
theorem C8_retention_sweep_witness :
    (cleanup_old_products
      [⟨"X1", "A", "t", 10, "u", "s", none, none, 0, 0⟩,
       ⟨"X2", "A", "t", 10, "u", "s", none, none, 20, 20⟩] 24 30).1 =
      ([⟨"X1", "A", "t", 10, "u", "s", none, none, 0, 0⟩,
        ⟨"X2", "A", "t", 10, "u", "s", none, none, 20, 20⟩].filter
          (fun p : Product => decide (p.created_at < 30 - 24))).length :=
  (C8_retention_sweep
    [⟨"X1", "A", "t", 10, "u", "s", none, none, 0, 0⟩,
     ⟨"X2", "A", "t", 10, "u", "s", none, none, 20, 20⟩] 24 30).2

/-- C5: add_search rejects a request whose keywords are blank after trimming,
or whose two price bounds satisfy min ≥ max, before anything is persisted:
it returns false and the search registry is unchanged. -/
theorem C5_add_search_validation (chat keywords : String) (mn mx : Option ℚ)
    (cat user nm : Option String) (now : ℚ) (st : TrackerState)
    (h : pyStrip keywords = "" ∨ ∃ a b, mn = some a ∧ mx = some b ∧ b ≤ a) :
    (ProductTracker.add_search chat keywords mn mx cat user nm now st).1 = false ∧
    (ProductTracker.add_search chat keywords mn mx cat user nm now st).2.searches =
      st.searches := by
  have hmk : mkProductSearch chat keywords mn mx cat user nm = none := by
    rcases h with h | ⟨a, b, ha, hb, hle⟩
    · have hv : validKeywords keywords = false := by
        simp [validKeywords, h]
      simp [mkProductSearch, hv]
    · subst ha; subst hb
      have hv : validPriceRange (some a) (some b) = false := by
        simp [validPriceRange, not_lt.mpr hle]
      simp [mkProductSearch, hv]
  simp [ProductTracker.add_search, hmk]

/-- Witness for C5: blank keywords, and bounds 50 ≥ 10, both rejected with
the registry left empty. -/
theorem C5_add_search_validation_witness :
    ((ProductTracker.add_search "123" "   " none none none none none 0
        ⟨[], [], []⟩).1 = false ∧
      (ProductTracker.add_search "123" "   " none none none none none 0
        ⟨[], [], []⟩).2.searches = []) ∧
    ((ProductTracker.add_search "123" "shoes" (some 50) (some 10) none none none 0
        ⟨[], [], []⟩).1 = false ∧
      (ProductTracker.add_search "123" "shoes" (some 50) (some 10) none none none 0
        ⟨[], [], []⟩).2.searches = []) := by
  constructor
  · exact C5_add_search_validation "123" "   " none none none none none 0
      ⟨[], [], []⟩ (Or.inl (by decide))
  · exact C5_add_search_validation "123" "shoes" (some 50) (some 10) none none none 0
      ⟨[], [], []⟩ (Or.inr ⟨50, 10, rfl, rfl, by norm_num⟩)

/-- C10: remove_search returns true and emits the removal confirmation
whether or not a matching search exists; when none matches, the registry is
untouched, so removing a never-added search is indistinguishable from
removing a real one at the public interface. -/
theorem C10_remove_search_always_true (chat keywords : String) (now : ℚ)
    (st : TrackerState) :
    (ProductTracker.remove_search chat keywords now st).1 = true ∧
    (ProductTracker.remove_search chat keywords now st).2.events =
      st.events ++ [Event.search_removed chat keywords] ∧
    ((∀ r ∈ st.searches, searchKeyMatches chat keywords r = false) →
      (ProductTracker.remove_search chat keywords now st).2.searches =
        st.searches) := by
  refine ⟨rfl, rfl, fun h => ?_⟩
  show deactivate_search st.searches chat keywords now = st.searches
  unfold deactivate_search
  calc st.searches.map (fun r =>
        if searchKeyMatches chat keywords r then
          { r with active := false, updated_at := now }
        else r)
      = st.searches.map id := List.map_congr_left (fun r hr => by simp [h r hr])
    _ = st.searches := List.map_id st.searches

/-- Witness for C10: removing a search that was never added (the store holds
one unrelated search) reports success, confirms, and changes nothing. -/
theorem C10_remove_search_always_true_witness :
    (ProductTracker.remove_search "A" "shoes" 7
      ⟨[], [⟨"B", "bikes", none, none, none, "400", 24, "newest", none, none,
        true, 0, 0⟩], []⟩).1 = true ∧
    (ProductTracker.remove_search "A" "shoes" 7
      ⟨[], [⟨"B", "bikes", none, none, none, "400", 24, "newest", none, none,
        true, 0, 0⟩], []⟩).2.searches =
      [⟨"B", "bikes", none, none, none, "400", 24, "newest", none, none,
        true, 0, 0⟩] := by
  refine ⟨(C10_remove_search_always_true "A" "shoes" 7 _).1, ?_⟩
  exact (C10_remove_search_always_true "A" "shoes" 7
    ⟨[], [⟨"B", "bikes", none, none, none, "400", 24, "newest", none, none,
      true, 0, 0⟩], []⟩).2.2 (by decide)

/-- C1 (code evaluated at the failing input): two scopes "A" and "B" track
listing "X1" at price 100; reconciling a price-50 candidate under scope "A"
also rewrites scope "B"'s row — price, observation note and updated_at —
because update_product_price's WHERE clause names only item_id. -/
theorem C1_cross_scope_price_update :
    DatabaseManager.get_product
        (ProductTracker.process_product_result ⟨"X1", "Zapatos", 50, "s", "u1"⟩
          "A" 1
          ⟨[⟨"X1", "A", "Zapatos", 100, "s", "u1", none, none, 0, 0⟩,
            ⟨"X1", "B", "Zapatos", 100, "s", "u2", none, none, 0, 0⟩],
           [], []⟩).products
        "X1" "B" =
      some ⟨"X1", "B", "Zapatos", 50, "s", "u2", none, some (priorNote 100),
        0, 1⟩ := by
  decide

/-- C9 (counterexample): deactivating a search does not set only its active
flag — updated_at is rewritten as well, so at this concrete input the result
differs from the stored row with only the flag cleared. -/
theorem C9_deactivate_not_only_active :
    DatabaseManager.deactivate_search
        [⟨"A", "kw", none, none, none, "400", 24, "newest", none, none,
          true, 0, 0⟩] "A" "kw" 5 ≠
      [⟨"A", "kw", none, none, none, "400", 24, "newest", none, none,
        false, 0, 0⟩] := by
  decide

/-! ### Reconciliation lemmas -/

lemma process_product_result_new (r : SearchResult) (chat : String) (now : ℚ)
    (st : TrackerState) (hnone : get_product st.products r.id chat = none)
    (htitle : pyStrip r.title ≠ "") (hpos : 0 < r.price) :
    process_product_result r chat now st =
      { st with
        products := add_product st.products
          ⟨r.id, chat, pyStrip r.title, r.price, r.web_slug, r.user_id,
            none, none, now, now⟩ now,
        events := st.events ++
          [Event.new_listing chat r.id (pyStrip r.title) r.price] } := by
  unfold process_product_result
  rw [hnone]
  unfold handle_new_product
  rw [mkProduct_of_valid _ _ _ _ _ _ _ _ _ _ hpos htitle]

lemma process_product_result_existing_ge (r : SearchResult) (chat : String)
    (existing : Product) (now : ℚ) (st : TrackerState)
    (hfound : get_product st.products r.id chat = some existing)
    (hge : existing.price ≤ r.price) :
    process_product_result r chat now st = st := by
  unfold process_product_result
  rw [hfound]
  show handle_existing_product r existing now st = st
  unfold handle_existing_product
  rw [if_neg (not_lt.mpr hge)]

lemma get_product_process_new_self (r : SearchResult) (chat : String)
    (now : ℚ) (st : TrackerState)
    (hnone : get_product st.products r.id chat = none)
    (htitle : pyStrip r.title ≠ "") (hpos : 0 < r.price) :
    get_product (process_product_result r chat now st).products r.id chat =
      some ⟨r.id, chat, pyStrip r.title, r.price, r.web_slug, r.user_id,
        none, none, now, now⟩ := by
  rw [process_product_result_new r chat now st hnone htitle hpos]
  simpa using get_product_add_product_self st.products
    ⟨r.id, chat, pyStrip r.title, r.price, r.web_slug, r.user_id,
      none, none, now, now⟩ now

/-- C2: reconciling a candidate against its tracked (id, S) row with stored
price P: a strictly lower candidate price P' is persisted as the stored price
for that key and exactly one price_drop event carrying (P, P') goes to that
scope; P' ≥ P changes no state and emits nothing. The candidate is assumed
well-formed: positive price (guaranteed by SearchResult's own validator) and
non-blank title (required by the Product model, which otherwise raises and
the listing is skipped). -/
theorem C2_price_drop (r : SearchResult) (existing : Product) (now : ℚ)
    (st : TrackerState)
    (hfound : get_product st.products r.id existing.chat_id = some existing)
    (htitle : pyStrip r.title ≠ "") (hpos : 0 < r.price) :
    ((r.price < existing.price) →
      (get_product (process_product_result r existing.chat_id now st).products
          r.id existing.chat_id).map Product.price = some r.price ∧
      (process_product_result r existing.chat_id now st).events =
        st.events ++
          [Event.price_drop existing.chat_id r.id existing.price r.price]) ∧
    ((existing.price ≤ r.price) →
      process_product_result r existing.chat_id now st = st) := by
  constructor
  · intro hlt
    obtain ⟨hitem, hchat⟩ := get_product_key hfound
    have hstep : process_product_result r existing.chat_id now st =
        { st with
          products := update_product_price st.products r.id r.price
            (some (priorNote existing.price)) now,
          events := st.events ++
            [Event.price_drop existing.chat_id r.id existing.price r.price] } := by
      unfold process_product_result
      rw [hfound]
      show handle_existing_product r existing now st = _
      unfold handle_existing_product
      rw [if_pos hlt, mkProduct_of_valid _ _ _ _ _ _ _ _ _ _ hpos htitle]
    rw [hstep]
    refine ⟨?_, rfl⟩
    show (get_product (update_product_price st.products r.id r.price
      (some (priorNote existing.price)) now) r.id existing.chat_id).map
        Product.price = some r.price
    rw [get_product_update_product_price, hfound]
    simp [hitem]
  · intro hge
    exact process_product_result_existing_ge r existing.chat_id existing now st
      hfound hge

/-- Witness for C2 at the spec's end-to-end example: listing X1 tracked at 45,
candidate at 30 → stored price 30 and one price_drop (45, 30); candidate at
50 → nothing. -/
theorem C2_price_drop_witness :
    ((get_product
        (process_product_result ⟨"X1", "T", 30, "s", "u"⟩ "A" 1
          ⟨[⟨"X1", "A", "T", 45, "s", "u", none, none, 0, 0⟩], [], []⟩).products
        "X1" "A").map Product.price = some 30 ∧
      (process_product_result ⟨"X1", "T", 30, "s", "u"⟩ "A" 1
        ⟨[⟨"X1", "A", "T", 45, "s", "u", none, none, 0, 0⟩], [], []⟩).events =
        [] ++ [Event.price_drop "A" "X1" 45 30]) ∧
    (process_product_result ⟨"X1", "T", 50, "s", "u"⟩ "A" 1
      ⟨[⟨"X1", "A", "T", 45, "s", "u", none, none, 0, 0⟩], [], []⟩ =
      ⟨[⟨"X1", "A", "T", 45, "s", "u", none, none, 0, 0⟩], [], []⟩) := by
  constructor
  · exact (C2_price_drop ⟨"X1", "T", 30, "s", "u"⟩
      ⟨"X1", "A", "T", 45, "s", "u", none, none, 0, 0⟩ 1
      ⟨[⟨"X1", "A", "T", 45, "s", "u", none, none, 0, 0⟩], [], []⟩
      (by decide) (by decide) (by norm_num)).1 (by norm_num)
  · exact (C2_price_drop ⟨"X1", "T", 50, "s", "u"⟩
      ⟨"X1", "A", "T", 45, "s", "u", none, none, 0, 0⟩ 1
      ⟨[⟨"X1", "A", "T", 45, "s", "u", none, none, 0, 0⟩], [], []⟩
      (by decide) (by decide) (by norm_num)).2 (by norm_num)

lemma process_creates_only_candidate_key (r2 : SearchResult) (c2 : String)
    (t3 : ℚ) (st2 : TrackerState) (i c : String)
    (h : (get_product (process_product_result r2 c2 t3 st2).products i c).isSome
      = true) :
    (get_product st2.products i c).isSome = true ∨ (i = r2.id ∧ c = c2) := by
  unfold process_product_result at h
  cases hg : get_product st2.products r2.id c2 with
  | none =>
    rw [hg] at h
    have hn : (get_product (handle_new_product r2 c2 t3 st2).products i c).isSome
        = true := h
    unfold handle_new_product at hn
    cases hmk : mkProduct r2.id c2 r2.title r2.price r2.web_slug r2.user_id
        none none t3 t3 with
    | none => rw [hmk] at hn; exact Or.inl hn
    | some p =>
      rw [hmk] at hn
      have hn2 : (get_product (add_product st2.products p t3) i c).isSome
          = true := hn
      obtain ⟨hp, -, -⟩ := mkProduct_eq_some hmk
      by_cases hic : i = r2.id ∧ c = c2
      · exact Or.inr hic
      · left
        have hne : ¬(i = p.item_id ∧ c = p.chat_id) := by
          rw [hp]; exact hic
        rw [get_product_add_product_other st2.products p t3 i c hne] at hn2
        exact hn2
  | some ex =>
    rw [hg] at h
    have hx : (get_product (handle_existing_product r2 ex t3 st2).products i
        c).isSome = true := h
    unfold handle_existing_product at hx
    by_cases hlt : r2.price < ex.price
    · rw [if_pos hlt] at hx
      cases hmk : mkProduct r2.id ex.chat_id r2.title r2.price r2.web_slug
          r2.user_id none (some (priorNote ex.price)) t3 t3 with
      | none => rw [hmk] at hx; exact Or.inl hx
      | some p =>
        rw [hmk] at hx
        have hx2 : (get_product (update_product_price st2.products r2.id
            r2.price (some (priorNote ex.price)) t3) i c).isSome = true := hx
        rw [get_product_update_product_price] at hx2
        exact Or.inl (by simpa using hx2)
    · rw [if_neg hlt] at hx
      exact Or.inl hx

/-- C3: a candidate not yet tracked under its scope is persisted as a new
TrackedListing and exactly one new_listing event is emitted; reconciliation
is the only operation that can create a row, and it can only create the
candidate's own (id, scope) key; reconciling the same candidate again with an
unchanged price changes nothing and emits nothing further. The candidate is
assumed well-formed (positive price, non-blank title) as in C2. -/
theorem C3_new_listing (r : SearchResult) (chat : String) (now t2 : ℚ)
    (st : TrackerState)
    (hnone : get_product st.products r.id chat = none)
    (htitle : pyStrip r.title ≠ "") (hpos : 0 < r.price) :
    (process_product_result r chat now st =
      { st with
        products := add_product st.products
          ⟨r.id, chat, pyStrip r.title, r.price, r.web_slug, r.user_id,
            none, none, now, now⟩ now,
        events := st.events ++
          [Event.new_listing chat r.id (pyStrip r.title) r.price] }) ∧
    (get_product (process_product_result r chat now st).products r.id chat =
      some ⟨r.id, chat, pyStrip r.title, r.price, r.web_slug, r.user_id,
        none, none, now, now⟩) ∧
    (process_product_result r chat t2 (process_product_result r chat now st) =
      process_product_result r chat now st) ∧
    (∀ (r2 : SearchResult) (c2 : String) (t3 : ℚ) (st2 : TrackerState)
      (i c : String),
      (get_product (process_product_result r2 c2 t3 st2).products i c).isSome
        = true →
      (get_product st2.products i c).isSome = true ∨ (i = r2.id ∧ c = c2)) := by
  refine ⟨process_product_result_new r chat now st hnone htitle hpos,
    get_product_process_new_self r chat now st hnone htitle hpos, ?_,
    process_creates_only_candidate_key⟩
  exact process_product_result_existing_ge r chat
    ⟨r.id, chat, pyStrip r.title, r.price, r.web_slug, r.user_id,
      none, none, now, now⟩ t2 (process_product_result r chat now st)
    (get_product_process_new_self r chat now st hnone htitle hpos) (le_refl _)

/-- Witness for C3 at the spec's end-to-end example: candidate X1 at 45 under
scope "A", empty store. -/
theorem C3_new_listing_witness :
    (process_product_result ⟨"X1", "red shoes", 45, "s", "u"⟩ "A" 1
        ⟨[], [], []⟩ =
      ⟨add_product []
          ⟨"X1", "A", pyStrip "red shoes", 45, "s", "u", none, none, 1, 1⟩ 1,
        [], [] ++ [Event.new_listing "A" "X1" (pyStrip "red shoes") 45]⟩) ∧
    (process_product_result ⟨"X1", "red shoes", 45, "s", "u"⟩ "A" 2
        (process_product_result ⟨"X1", "red shoes", 45, "s", "u"⟩ "A" 1
          ⟨[], [], []⟩) =
      process_product_result ⟨"X1", "red shoes", 45, "s", "u"⟩ "A" 1
        ⟨[], [], []⟩) := by
  refine ⟨?_, ?_⟩
  · exact (C3_new_listing ⟨"X1", "red shoes", 45, "s", "u"⟩ "A" 1 2 ⟨[], [], []⟩
      (by decide) (by decide) (by norm_num)).1
  · exact (C3_new_listing ⟨"X1", "red shoes", 45, "s", "u"⟩ "A" 1 2 ⟨[], [], []⟩
      (by decide) (by decide) (by norm_num)).2.2.1

/-- C4: a listing id novel to two distinct scopes, reconciled under each in
turn, yields two independent TrackedListing rows — one per (id, scope) key —
and exactly two new_listing events, one to each scope. -/
theorem C4_scope_isolation (r : SearchResult) (s1 s2 : String) (now1 now2 : ℚ)
    (st : TrackerState) (hne : s1 ≠ s2)
    (h1 : get_product st.products r.id s1 = none)
    (h2 : get_product st.products r.id s2 = none)
    (htitle : pyStrip r.title ≠ "") (hpos : 0 < r.price) :
    (get_product (process_product_result r s2 now2
        (process_product_result r s1 now1 st)).products r.id s1 =
      some ⟨r.id, s1, pyStrip r.title, r.price, r.web_slug, r.user_id,
        none, none, now1, now1⟩) ∧
    (get_product (process_product_result r s2 now2
        (process_product_result r s1 now1 st)).products r.id s2 =
      some ⟨r.id, s2, pyStrip r.title, r.price, r.web_slug, r.user_id,
        none, none, now2, now2⟩) ∧
    (process_product_result r s2 now2
        (process_product_result r s1 now1 st)).events =
      st.events ++ [Event.new_listing s1 r.id (pyStrip r.title) r.price,
        Event.new_listing s2 r.id (pyStrip r.title) r.price] := by
  have e1 := process_product_result_new r s1 now1 st h1 htitle hpos
  have g1 := get_product_process_new_self r s1 now1 st h1 htitle hpos
  have g2 : get_product (process_product_result r s1 now1 st).products r.id s2
      = none := by
    rw [e1]
    show get_product (add_product st.products
      ⟨r.id, s1, pyStrip r.title, r.price, r.web_slug, r.user_id,
        none, none, now1, now1⟩ now1) r.id s2 = none
    rw [get_product_add_product_other]
    · exact h2
    · rintro ⟨-, hc⟩
      exact hne.symm hc
  have e2 := process_product_result_new r s2 now2
    (process_product_result r s1 now1 st) g2 htitle hpos
  refine ⟨?_, ?_, ?_⟩
  · rw [e2]
    show get_product (add_product
      (process_product_result r s1 now1 st).products
      ⟨r.id, s2, pyStrip r.title, r.price, r.web_slug, r.user_id,
        none, none, now2, now2⟩ now2) r.id s1 =
      some ⟨r.id, s1, pyStrip r.title, r.price, r.web_slug, r.user_id,
        none, none, now1, now1⟩
    rw [get_product_add_product_other]
    · exact g1
    · rintro ⟨-, hc⟩
      exact hne hc
  · exact get_product_process_new_self r s2 now2
      (process_product_result r s1 now1 st) g2 htitle hpos
  · rw [e2, e1]
    simp

/-! ### Notification gateway lemmas -/

lemma send_step_window (maxN : Nat) (now : ℚ) (tr : Option Bool)
    (st : NotifState) (h : now - st.last_reset ≤ 3600) :
    (send_telegram_message maxN now tr st).2.1.last_reset = st.last_reset ∧
    (send_telegram_message maxN now tr st).2.1.notification_count =
      st.notification_count +
        (if (send_telegram_message maxN now tr st).1 then 1 else 0) ∧
    ((send_telegram_message maxN now tr st).1 = true →
      st.notification_count < maxN) := by
  unfold send_telegram_message check_rate_limit
  rw [if_neg (not_lt.mpr h)]
  by_cases hc : maxN ≤ st.notification_count
  · rw [if_pos hc]
    simp
  · rw [if_neg hc]
    cases tr with
    | none => simp
    | some b => cases b <;> simp [not_le.mp hc]

lemma send_many_window (maxN : Nat) (attempts : List (ℚ × Option Bool))
    (st : NotifState) (hcnt : st.notification_count ≤ maxN)
    (hwin : ∀ a ∈ attempts, a.1 - st.last_reset ≤ 3600) :
    (send_many maxN attempts st).2.notification_count ≤ maxN ∧
    (send_many maxN attempts st).1.count true + st.notification_count =
      (send_many maxN attempts st).2.notification_count ∧
    (send_many maxN attempts st).2.last_reset = st.last_reset := by
  induction attempts generalizing st with
  | nil => exact ⟨hcnt, by simp [send_many], rfl⟩
  | cons a rest ih =>
    obtain ⟨hl, hc, hi⟩ := send_step_window maxN a.1 a.2 st (hwin a (by simp))
    have hcnt1 : (send_telegram_message maxN a.1 a.2 st).2.1.notification_count
        ≤ maxN := by
      rw [hc]
      cases hb : (send_telegram_message maxN a.1 a.2 st).1
      · simpa using hcnt
      · have := hi hb
        simp
        omega
    have hwin1 : ∀ b ∈ rest,
        b.1 - (send_telegram_message maxN a.1 a.2 st).2.1.last_reset ≤ 3600 := by
      intro b hb
      rw [hl]
      exact hwin b (by simp [hb])
    obtain ⟨k1, k2, k3⟩ := ih (send_telegram_message maxN a.1 a.2 st).2.1
      hcnt1 hwin1
    unfold send_many
    refine ⟨k1, ?_, by rw [k3, hl]⟩
    rw [List.count_cons]
    cases hb : (send_telegram_message maxN a.1 a.2 st).1 <;>
      rw [hb] at hc <;> simp at hc <;> simp [hb] <;> omega

/-- C6: the gateway's hourly quota. At the cap and inside the window, a send
fails with the state unchanged and without contacting the transport; a send
reports success iff the transport confirmed (HTTP 200) and the limiter
admitted it — transport errors and non-200 replies come back as a boolean
false; the counter increments exactly on confirmed success; and across any
sequence of attempts inside one window the counter (which counts exactly the
confirmed sends) never exceeds the configured maximum (default 50). -/
theorem C6_notification_rate_limit (maxN : Nat) (now : ℚ) (tr : Option Bool)
    (st : NotifState) :
    ((maxN ≤ st.notification_count → now - st.last_reset ≤ 3600 →
      send_telegram_message maxN now tr st = (false, st, false))) ∧
    ((send_telegram_message maxN now tr st).1 = true ↔
      (tr = some true ∧ (check_rate_limit maxN now st).1 = true)) ∧
    ((send_telegram_message maxN now tr st).2.1.notification_count =
      (check_rate_limit maxN now st).2.notification_count +
        (if (send_telegram_message maxN now tr st).1 then 1 else 0)) ∧
    (∀ attempts : List (ℚ × Option Bool), st.notification_count ≤ maxN →
      (∀ a ∈ attempts, a.1 - st.last_reset ≤ 3600) →
      (send_many maxN attempts st).2.notification_count ≤ maxN ∧
      (send_many maxN attempts st).1.count true + st.notification_count =
        (send_many maxN attempts st).2.notification_count) := by
  refine ⟨?_, ?_, ?_, fun attempts h1 h2 =>
    ⟨(send_many_window maxN attempts st h1 h2).1,
     (send_many_window maxN attempts st h1 h2).2.1⟩⟩
  · intro hcap hwin
    unfold send_telegram_message check_rate_limit
    rw [if_neg (not_lt.mpr hwin), if_pos hcap]
    simp
  · unfold send_telegram_message
    rcases hrc : check_rate_limit maxN now st with ⟨b, st1⟩
    cases b
    · simp
    · cases tr with
      | none => simp
      | some v => cases v <;> simp
  · unfold send_telegram_message
    rcases hrc : check_rate_limit maxN now st with ⟨b, st1⟩
    cases b
    · simp
    · cases tr with
      | none => simp
      | some v => cases v <;> simp

/-- Witness for C6: at the cap (50 confirmed sends, window started at 0) a
send at minute 100 fails untouched; a fresh window processing three attempts
(two confirmed, one transport failure) ends with the counter at the number of
confirmed sends, within the cap. -/
theorem C6_notification_rate_limit_witness :
    (send_telegram_message 50 100 (some true) ⟨50, 0⟩ =
      (false, ⟨50, 0⟩, false)) ∧
    ((send_many 50 [(10, some true), (20, none), (30, some true)]
        ⟨0, 0⟩).2.notification_count ≤ 50 ∧
      (send_many 50 [(10, some true), (20, none), (30, some true)]
          ⟨0, 0⟩).1.count true + 0 =
        (send_many 50 [(10, some true), (20, none), (30, some true)]
          ⟨0, 0⟩).2.notification_count) := by
  constructor
  · exact (C6_notification_rate_limit 50 100 (some true) ⟨50, 0⟩).1
      (le_refl 50) (by norm_num)
  · exact (C6_notification_rate_limit 50 0 none ⟨0, 0⟩).2.2.2
      [(10, some true), (20, none), (30, some true)] (by norm_num)
      (by intro a ha
          simp at ha
          rcases ha with h | h | h <;> rw [h] <;> norm_num)

/-! ### Cycle isolation lemmas -/

lemma process_product_result_blank (r : SearchResult) (chat : String)
    (now : ℚ) (st : TrackerState) (h : pyStrip r.title = "") :
    process_product_result r chat now st = st := by
  unfold process_product_result
  cases hg : get_product st.products r.id chat with
  | none =>
    show handle_new_product r chat now st = st
    unfold handle_new_product
    have hmk : mkProduct r.id chat r.title r.price r.web_slug r.user_id
        none none now now = none := by
      unfold mkProduct
      rw [if_neg]
      rintro ⟨-, ht⟩
      exact ht h
    rw [hmk]
  | some ex =>
    show handle_existing_product r ex now st = st
    unfold handle_existing_product
    by_cases hlt : r.price < ex.price
    · rw [if_pos hlt]
      have hmk : mkProduct r.id ex.chat_id r.title r.price r.web_slug r.user_id
          none (some (priorNote ex.price)) now now = none := by
        unfold mkProduct
        rw [if_neg]
        rintro ⟨-, ht⟩
        exact ht h
      rw [hmk]
    · rw [if_neg hlt]

/-- C7: failure isolation in the polling cycle. An adapter failure leaves the
state untouched; a search whose adapter call fails is dropped from the cycle
without affecting how the remaining searches are processed; and a malformed
candidate (one the Product model rejects, e.g. a blank title) is skipped
without affecting reconciliation of its sibling listings. The fold-based
embedding processes every element, so the cycle always runs to completion. -/
theorem C7_failure_isolation :
    (∀ (chat : String) (now : ℚ) (st : TrackerState) (e : Unit),
      process_search (Except.error e) chat now st = st) ∧
    (∀ (pre post : List (String × Except Unit (List SearchResult)))
      (chat : String) (e : Unit) (now : ℚ) (st : TrackerState),
      process_all_searches (pre ++ (chat, Except.error e) :: post) now st =
        process_all_searches (pre ++ post) now st) ∧
    (∀ (l1 l2 : List SearchResult) (r : SearchResult) (chat : String)
      (now : ℚ) (st : TrackerState), pyStrip r.title = "" →
      process_results (l1 ++ r :: l2) chat now st =
        process_results (l1 ++ l2) chat now st) := by
  refine ⟨fun chat now st e => rfl, ?_, ?_⟩
  · intro pre post chat e now st
    unfold process_all_searches
    rw [List.foldl_append, List.foldl_append, List.foldl_cons]
    rfl
  · intro l1 l2 r chat now st h
    unfold process_results
    rw [List.foldl_append, List.foldl_append, List.foldl_cons,
      process_product_result_blank r chat now _ h]

/-- Witness for C7: a failing search between two healthy ones contributes
nothing, and a blank-title candidate between two healthy candidates is
skipped. -/
theorem C7_failure_isolation_witness :
    (process_search (Except.error ()) "A" 0 ⟨[], [], []⟩ = ⟨[], [], []⟩) ∧
    (process_all_searches
        ([("A", Except.ok [])] ++ ("B", Except.error ()) ::
          [("C", Except.ok [])]) 0 ⟨[], [], []⟩ =
      process_all_searches ([("A", Except.ok [])] ++ [("C", Except.ok [])]) 0
        ⟨[], [], []⟩) ∧
    (process_results
        ([⟨"X1", "T", 5, "s", "u"⟩] ++ ⟨"X2", "   ", 5, "s", "u"⟩ ::
          [⟨"X3", "T", 5, "s", "u"⟩]) "A" 0 ⟨[], [], []⟩ =
      process_results ([⟨"X1", "T", 5, "s", "u"⟩] ++ [⟨"X3", "T", 5, "s", "u"⟩])
        "A" 0 ⟨[], [], []⟩) :=
  ⟨C7_failure_isolation.1 "A" 0 ⟨[], [], []⟩ (),
   C7_failure_isolation.2.1 [("A", Except.ok [])] [("C", Except.ok [])] "B" ()
     0 ⟨[], [], []⟩,
   C7_failure_isolation.2.2 [⟨"X1", "T", 5, "s", "u"⟩]
     [⟨"X3", "T", 5, "s", "u"⟩] ⟨"X2", "   ", 5, "s", "u"⟩ "A" 0 ⟨[], [], []⟩
     (by decide)⟩

/-! ### Search registry lemmas -/

lemma mkProductSearch_eq_some {chat keywords : String} {mn mx : Option ℚ}
    {cat user nm : Option String} {s : ProductSearch}
    (h : mkProductSearch chat keywords mn mx cat user nm = some s) :
    s = ⟨chat, pyStrip keywords, mn, mx, cat, "400", 24, "newest", user, nm,
      true⟩ := by
  unfold mkProductSearch at h
  split at h
  · exact (Option.some_inj.mp h).symm
  · exact absurd h (by simp)

lemma filter_key_add_search (db : List SearchRow) (s : ProductSearch)
    (now : ℚ) :
    (DatabaseManager.add_search db s now).filter
        (searchKeyMatches s.chat_id s.keywords) =
      [⟨s.chat_id, s.keywords, s.min_price, s.max_price, s.category_ids,
        s.distance, s.publish_date, s.order, s.username, s.name, s.active,
        now, now⟩] := by
  unfold DatabaseManager.add_search
  rw [List.filter_append]
  have h1 : (db.filter fun r =>
      !(searchKeyMatches s.chat_id s.keywords r)).filter
      (searchKeyMatches s.chat_id s.keywords) = [] := by
    induction db with
    | nil => rfl
    | cons a t ih =>
      cases hk : searchKeyMatches s.chat_id s.keywords a <;>
        simp [List.filter_cons, hk, ih]
  have h2 : searchKeyMatches s.chat_id s.keywords
      ⟨s.chat_id, s.keywords, s.min_price, s.max_price, s.category_ids,
        s.distance, s.publish_date, s.order, s.username, s.name, s.active,
        now, now⟩ = true := by
    simp [searchKeyMatches]
  rw [h1]
  simp [List.filter_cons, h2]

lemma process_found_no_new_listing (r : SearchResult) (chat : String) (t : ℚ)
    (st : TrackerState)
    (h : (get_product st.products r.id chat).isSome = true) :
    ∃ es, (process_product_result r chat t st).events = st.events ++ es ∧
      es.all (fun e => !(e.isNewListing)) = true := by
  unfold process_product_result
  cases hg : get_product st.products r.id chat with
  | none => rw [hg] at h; simp at h
  | some ex =>
    show ∃ es, (handle_existing_product r ex t st).events = st.events ++ es ∧
      es.all (fun e => !(e.isNewListing)) = true
    unfold handle_existing_product
    by_cases hlt : r.price < ex.price
    · rw [if_pos hlt]
      cases hmk : mkProduct r.id ex.chat_id r.title r.price r.web_slug
          r.user_id none (some (priorNote ex.price)) t t with
      | none => exact ⟨[], by simp, rfl⟩
      | some p =>
        exact ⟨[Event.price_drop ex.chat_id r.id ex.price r.price], rfl, rfl⟩
    · rw [if_neg hlt]
      exact ⟨[], by simp, rfl⟩

/-- C9 (amended): removing a search is a soft-delete that sets its active
flag to false and refreshes its updated_at, leaving every other field, every
other search row, and all TrackedListing rows untouched; re-adding the same
(scope, keywords) upserts in place — afterwards exactly one row exists for
that key, refreshed and active — and, since the tracked listings survive
untouched, reconciling a listing already tracked in that scope emits no
new_listing event. (`hkw` says the removal key is already in stored,
stripped form, as every persisted search's keywords are.) -/
theorem C9_soft_delete_upsert_readd (chat keywords : String)
    (mn mx : Option ℚ) (cat user nm : Option String) (now1 now2 t : ℚ)
    (st : TrackerState) (s : ProductSearch)
    (hmk : mkProductSearch chat keywords mn mx cat user nm = some s)
    (hkw : pyStrip keywords = keywords) :
    ((ProductTracker.remove_search chat keywords now1 st).2.products =
      st.products) ∧
    ((ProductTracker.remove_search chat keywords now1 st).2.searches.length =
      st.searches.length) ∧
    (∀ r ∈ st.searches, searchKeyMatches chat keywords r = true →
      { r with active := false, updated_at := now1 } ∈
        (ProductTracker.remove_search chat keywords now1 st).2.searches) ∧
    (∀ r ∈ st.searches, searchKeyMatches chat keywords r = false →
      r ∈ (ProductTracker.remove_search chat keywords now1 st).2.searches) ∧
    ((ProductTracker.add_search chat keywords mn mx cat user nm now2
        (ProductTracker.remove_search chat keywords now1 st).2).2.products =
      st.products) ∧
    ((ProductTracker.add_search chat keywords mn mx cat user nm now2
        (ProductTracker.remove_search chat keywords now1
          st).2).2.searches.filter (searchKeyMatches chat keywords) =
      [⟨chat, keywords, mn, mx, cat, "400", 24, "newest", user, nm, true,
        now2, now2⟩]) ∧
    (∀ (r : SearchResult) (st3 : TrackerState),
      (get_product st3.products r.id chat).isSome = true →
      ∃ es, (process_product_result r chat t st3).events = st3.events ++ es ∧
        es.all (fun e => !(e.isNewListing)) = true) := by
  have hs := mkProductSearch_eq_some hmk
  subst hs
  rw [hkw] at hmk
  have hadd : ∀ X : TrackerState,
      ProductTracker.add_search chat keywords mn mx cat user nm now2 X =
        (true, { X with
          searches := DatabaseManager.add_search X.searches
            ⟨chat, keywords, mn, mx, cat, "400", 24, "newest", user, nm,
              true⟩ now2,
          events := X.events ++ [Event.search_added chat keywords] }) := by
    intro X
    unfold ProductTracker.add_search
    rw [hmk]
  refine ⟨rfl, ?_, ?_, ?_, ?_, ?_,
    fun r st3 => process_found_no_new_listing r chat t st3⟩
  · show (deactivate_search st.searches chat keywords now1).length =
      st.searches.length
    unfold deactivate_search
    exact List.length_map _ _
  · intro r hr hkey
    show _ ∈ deactivate_search st.searches chat keywords now1
    unfold deactivate_search
    have hm := List.mem_map_of_mem (fun r : SearchRow =>
      if searchKeyMatches chat keywords r then
        { r with active := false, updated_at := now1 }
      else r) hr
    simpa [hkey] using hm
  · intro r hr hkey
    show _ ∈ deactivate_search st.searches chat keywords now1
    unfold deactivate_search
    have hm := List.mem_map_of_mem (fun r : SearchRow =>
      if searchKeyMatches chat keywords r then
        { r with active := false, updated_at := now1 }
      else r) hr
    simpa [hkey] using hm
  · rw [hadd]
    exact rfl
  · rw [hadd]
    exact filter_key_add_search _
      ⟨chat, keywords, mn, mx, cat, "400", 24, "newest", user, nm, true⟩ now2

/-- Witness for C9's amended statement: one search ("A", "kw") over a store
with one tracked listing; remove at time 1, re-add at time 2. -/
theorem C9_soft_delete_upsert_readd_witness :
    ((ProductTracker.remove_search "A" "kw" 1
      ⟨[⟨"X1", "A", "T", 45, "s", "u", none, none, 0, 0⟩],
       [⟨"A", "kw", none, none, none, "400", 24, "newest", none, none,
         true, 0, 0⟩], []⟩).2.products =
      [⟨"X1", "A", "T", 45, "s", "u", none, none, 0, 0⟩]) ∧
    (⟨"A", "kw", none, none, none, "400", 24, "newest", none, none,
      false, 0, 1⟩ ∈
      (ProductTracker.remove_search "A" "kw" 1
        ⟨[⟨"X1", "A", "T", 45, "s", "u", none, none, 0, 0⟩],
         [⟨"A", "kw", none, none, none, "400", 24, "newest", none, none,
           true, 0, 0⟩], []⟩).2.searches) ∧
    ((ProductTracker.add_search "A" "kw" none none none none none 2
        (ProductTracker.remove_search "A" "kw" 1
          ⟨[⟨"X1", "A", "T", 45, "s", "u", none, none, 0, 0⟩],
           [⟨"A", "kw", none, none, none, "400", 24, "newest", none, none,
             true, 0, 0⟩], []⟩).2).2.searches.filter
        (searchKeyMatches "A" "kw") =
      [⟨"A", "kw", none, none, none, "400", 24, "newest", none, none, true,
        2, 2⟩]) := by
  refine ⟨(C9_soft_delete_upsert_readd "A" "kw" none none none none none 1 2 3
      ⟨[⟨"X1", "A", "T", 45, "s", "u", none, none, 0, 0⟩],
       [⟨"A", "kw", none, none, none, "400", 24, "newest", none, none,
         true, 0, 0⟩], []⟩
      ⟨"A", "kw", none, none, none, "400", 24, "newest", none, none, true⟩
      (by decide) (by decide)).1, ?_, ?_⟩
  · exact (C9_soft_delete_upsert_readd "A" "kw" none none none none none 1 2 3
      ⟨[⟨"X1", "A", "T", 45, "s", "u", none, none, 0, 0⟩],
       [⟨"A", "kw", none, none, none, "400", 24, "newest", none, none,
         true, 0, 0⟩], []⟩
      ⟨"A", "kw", none, none, none, "400", 24, "newest", none, none, true⟩
      (by decide) (by decide)).2.2.1
      ⟨"A", "kw", none, none, none, "400", 24, "newest", none, none,
        true, 0, 0⟩ (by decide) (by decide)
  · exact (C9_soft_delete_upsert_readd "A" "kw" none none none none none 1 2 3
      ⟨[⟨"X1", "A", "T", 45, "s", "u", none, none, 0, 0⟩],
       [⟨"A", "kw", none, none, none, "400", 24, "newest", none, none,
         true, 0, 0⟩], []⟩
      ⟨"A", "kw", none, none, none, "400", 24, "newest", none, none, true⟩
      (by decide) (by decide)).2.2.2.2.2.1

/-- Witness for C4: listing X1, scopes "A" and "B", empty store. -/
theorem C4_scope_isolation_witness :
    (get_product (process_product_result ⟨"X1", "T", 45, "s", "u"⟩ "B" 2
        (process_product_result ⟨"X1", "T", 45, "s", "u"⟩ "A" 1
          ⟨[], [], []⟩)).products "X1" "A" =
      some ⟨"X1", "A", pyStrip "T", 45, "s", "u", none, none, 1, 1⟩) ∧
    (get_product (process_product_result ⟨"X1", "T", 45, "s", "u"⟩ "B" 2
        (process_product_result ⟨"X1", "T", 45, "s", "u"⟩ "A" 1
          ⟨[], [], []⟩)).products "X1" "B" =
      some ⟨"X1", "B", pyStrip "T", 45, "s", "u", none, none, 2, 2⟩) ∧
    (process_product_result ⟨"X1", "T", 45, "s", "u"⟩ "B" 2
        (process_product_result ⟨"X1", "T", 45, "s", "u"⟩ "A" 1
          ⟨[], [], []⟩)).events =
      [] ++ [Event.new_listing "A" "X1" (pyStrip "T") 45,
        Event.new_listing "B" "X1" (pyStrip "T") 45] :=
  C4_scope_isolation ⟨"X1", "T", 45, "s", "u"⟩ "A" "B" 1 2 ⟨[], [], []⟩
    (by decide) (by decide) (by decide) (by decide) (by norm_num)

end Wallbot
